import Mathlib

/-!
Verification development for the gradience repository.

The repository ships an action-dispatcher core (specified in spec.md and
exercised by zig-core/tests/offline.py and zig-core/tests/smoke.py) and a
FastAPI gateway (apps/api/main.py).  The dispatcher binary itself is not part
of the source tree, so its data model and operations are modelled here from
the specification text, constrained by the behaviour the shipped tests
assert; the gateway endpoints are embedded directly from apps/api/main.py.
-/

namespace Gradience

/-! ### Character-level string utilities

The dispatcher trims surrounding whitespace and case-folds tokens.  These are
modelled on the character list underlying a string so that every operation is
a structural recursion. -/

/-- Whitespace test used by the trim model. -/
def isSpaceChar (c : Char) : Bool :=
  c == ' ' || c == '\t' || c == '\n' || c == '\r'

/-- Split a character list at commas. -/
def splitCommaAux : List Char → List Char → List (List Char)
  | [], acc => [acc.reverse]
  | c :: cs, acc =>
    if c == ',' then acc.reverse :: splitCommaAux cs []
    else splitCommaAux cs (c :: acc)

/-- Trim leading and trailing whitespace from a character list. -/
def trimChars (l : List Char) : List Char :=
  ((l.dropWhile isSpaceChar).reverse.dropWhile isSpaceChar).reverse

/-- Lower-case every character. -/
def lowerChars (l : List Char) : List Char := l.map Char.toLower

/-- Trim a string. -/
def strTrim (s : String) : String := String.mk (trimChars s.data)

/-- Lower-case a string. -/
def strLower (s : String) : String := String.mk (lowerChars s.data)

/-- Modelled from the spec: select/provider token normalization (trim then
case-fold); the zig-core binary is absent from src, so this follows spec
section 4.J and the offline tests. -/
def normalizeTok (s : String) : String := strLower (strTrim s)

/-- Modelled from the spec: comma-separated parameter tokenization; tokens are
trimmed and empty tokens are dropped (spec section 4.J, envelope shaping). -/
def selectTokens (s : String) : List String :=
  (((splitCommaAux s.data []).map (fun cs => String.mk (trimChars cs))).filter
    (fun t => t != ""))

/-- Deduplicate a key list keeping the first occurrence, carrying the set of
keys already seen. -/
def dedupSeen : List String → List String → List String
  | [], _ => []
  | k :: ks, seen =>
    if k ∈ seen then dedupSeen ks seen
    else k :: dedupSeen ks (k :: seen)

/-- Deduplicate a key list keeping first occurrences. -/
def dedupKeys (l : List String) : List String := dedupSeen l []

/-! ### Select projection -/

/-- Look up a normalized token in an action alias table. -/
def aliasLookup (aliases : List (String × String)) (n : String) : Option String :=
  (aliases.find? (fun p => p.fst == n)).map Prod.snd

/-- Modelled from the spec: resolve one select token through the action alias
map; tokens are matched after trim and case-fold and map to the canonical
key (spec section 4.J). -/
def resolveTok (aliases : List (String × String)) (t : String) : Option String :=
  aliasLookup aliases (normalizeTok t)

/-- Modelled from the spec: the canonical key list of a select token list:
unknown tokens are dropped, the rest resolve to canonical keys, duplicates
collapse to the first occurrence. -/
def selectKeysOfTokens (aliases : List (String × String)) (ts : List String) :
    List String :=
  dedupKeys (ts.filterMap (resolveTok aliases))

/-- Modelled from the spec: parsing the select parameter; a select present but
yielding zero tokens after trim is validation error code 2, otherwise the
canonical key list is produced (spec section 4.J). -/
def parseSelect (aliases : List (String × String)) (s : String) :
    Except Nat (List String) :=
  if (selectTokens s).isEmpty then .error 2
  else .ok (selectKeysOfTokens aliases (selectTokens s))

/-- Modelled from the spec: projection of a response object to the selected
canonical keys. -/
def projectObj {α : Type} (keys : List String) (row : List (String × α)) :
    List (String × α) :=
  keys.filterMap (fun k => (row.find? (fun p => p.fst == k)).map
    (fun p => (k, p.snd)))

/-- Alias table of the chainsTop action: canonical keys are snake_case and
camelCase variants are aliases, as the offline tests exercise. -/
def chainsTopAliases : List (String × String) :=
  [("chain", "chain"), ("rank", "rank"),
   ("chain_id", "chain_id"), ("chainid", "chain_id"),
   ("tvl_usd", "tvl_usd"), ("tvlusd", "tvl_usd")]

/-! ### Live-data layer

Modelled from the spec (section 4.H): the zig-core binary is absent from src,
so the fresh / cache / stale-cache / registry state machine, the per-provider
URL overrides and the classified fetch failures are modelled from the
specification text, with the cache fingerprint extended by the resolved URL
as the offline tests require (a forced fetch against a changed or removed URL
does not reuse an entry recorded under another URL). -/

/-- Source tag of a live-data response. -/
inductive SourceTag
  | live
  | cache
  | stale_cache
  | registry
deriving DecidableEq

/-- Successful live-data response metadata. -/
structure LiveOk where
  source : SourceTag
  sourceProvider : String
  fetchedAtUnix : Nat
  sourceUrl : String
deriving DecidableEq

/-- A live-data layer outcome: success metadata or an in-band error. -/
inductive LiveResp
  | ok (r : LiveOk)
  | err (code : Nat) (msg : String)
deriving DecidableEq

/-- Classified fetch failure (spec section 4.G). -/
inductive FetchFailure
  | missing_url
  | unreachable
  | non_json
deriving DecidableEq

/-- A persisted cache entry for a live-markets fingerprint. -/
structure CacheEntry where
  provider : String
  fetchedAtUnix : Nat
  url : String
  ttlSeconds : Nat
deriving DecidableEq

/-- The per-request world the live-data layer runs against: provider URL
configuration, fetch outcomes by URL, transport tag, clock, staleness policy
and the cache rows for the fingerprint of the current request. -/
structure LiveEnv where
  urlOf : String → Option String
  fetchOk : String → Bool
  failureOf : String → FetchFailure
  transportTag : String
  now : Nat
  allowStale : Bool
  maxStaleSeconds : Nat
  entry : String → Option CacheEntry

/-- Modelled from the spec: an entry is fresh while fetched_at + ttl has not
passed (spec section 4.F). -/
def entryFresh (env : LiveEnv) (e : CacheEntry) : Bool :=
  decide (env.now ≤ e.fetchedAtUnix + e.ttlSeconds)

/-- Modelled from the spec: an entry is stale when past its ttl but within the
max-stale window (spec section 4.F). -/
def entryStale (env : LiveEnv) (e : CacheEntry) : Bool :=
  decide (e.fetchedAtUnix + e.ttlSeconds < env.now ∧
    env.now ≤ e.fetchedAtUnix + e.ttlSeconds + env.maxStaleSeconds)

/-- Modelled from the spec: the deterministic unavailable-source error context
embedding the provider and transport identifiers (spec sections 4.G and 7). -/
def unavailableMsg (p transport : String) : String :=
  "live source unavailable: provider=" ++ p ++ " transport=" ++ transport

/-- Modelled from the spec: one HTTP fetch for provider p at url, classifying
unreachable and non-JSON bodies (spec section 4.G). -/
def attemptLive (env : LiveEnv) (p url : String) : Except FetchFailure LiveOk :=
  if env.fetchOk url then .ok ⟨.live, p, env.now, url⟩
  else .error (env.failureOf url)

/-- Modelled from the spec: one provider attempt: a missing configured URL is
a classified failure; an in-TTL cache entry recorded under the same URL is
served as source=cache; otherwise the live fetch runs (spec section 4.H). -/
def attemptProvider (env : LiveEnv) (p : String) : Except FetchFailure LiveOk :=
  match env.urlOf p with
  | none => .error .missing_url
  | some url =>
    match env.entry p with
    | some e =>
      if e.url == url && entryFresh env e then
        .ok ⟨.cache, e.provider, e.fetchedAtUnix, e.url⟩
      else attemptLive env p url
    | none => attemptLive env p url

/-- Modelled from the spec: after a forced-mode live failure, a stale entry is
served when allowed, else error code 12 with provider and transport context
(spec section 4.H). -/
def staleOrUnavailable (env : LiveEnv) (p : String) : LiveResp :=
  if env.allowStale then
    match env.entry p with
    | some e =>
      if entryStale env e then .ok ⟨.stale_cache, e.provider, e.fetchedAtUnix, e.url⟩
      else .err 12 (unavailableMsg p env.transportTag)
    | none => .err 12 (unavailableMsg p env.transportTag)
  else .err 12 (unavailableMsg p env.transportTag)

/-- Modelled from the spec: liveMode=live with a pinned liveProvider: only
that provider is attempted; on failure there is no cross-provider fallback
(spec section 4.H). -/
def fetchForcedMode (env : LiveEnv) (p : String) : LiveResp :=
  match attemptProvider env p with
  | .ok r => .ok r
  | .error _ => staleOrUnavailable env p

/-- Modelled from the spec: the registry response carries fetched_at 0 and an
empty source URL (spec section 3, Live-Data Response). -/
def registryResp (p : String) : LiveResp := .ok ⟨.registry, p, 0, ""⟩

/-- Modelled from the spec: terminal fallback of auto provider selection:
stale cache when allowed and present, else registry; never an error
(spec sections 4.H and 7). -/
def staleOrRegistry (env : LiveEnv) (p fb : String) : LiveResp :=
  if env.allowStale then
    match env.entry fb with
    | some e =>
      if entryStale env e then .ok ⟨.stale_cache, e.provider, e.fetchedAtUnix, e.url⟩
      else registryResp p
    | none => registryResp p
  else registryResp p

/-- Modelled from the spec: liveProvider=auto: try the natural primary; on any
classified failure fall back to defillama; on defillama failure surface stale
cache or registry (spec section 4.H). -/
def fetchAutoProvider (env : LiveEnv) (primary : String) : LiveResp :=
  match attemptProvider env primary with
  | .ok r => .ok r
  | .error _ =>
    match attemptProvider env "defillama" with
    | .ok r => .ok r
    | .error _ => staleOrRegistry env primary "defillama"

/-- Modelled from the spec: the liveMode state machine of a live-eligible
action: off selects registry, live selects the pinned or auto provider path
(absent liveProvider defaults to defillama), anything else is the silent auto
path (spec section 4.H). -/
def liveDispatch (env : LiveEnv) (liveMode : String) (liveProvider : Option String)
    (provider : String) : LiveResp :=
  if liveMode == "off" then registryResp provider
  else if liveMode == "live" then
    if liveProvider.getD "defillama" == "auto" then fetchAutoProvider env provider
    else fetchForcedMode env (liveProvider.getD "defillama")
  else
    match fetchAutoProvider env provider with
    | .ok r => .ok r
    | .err _ _ => registryResp provider

/-- The pinned-provider path only reads the environment at the pinned
provider: two worlds agreeing there are indistinguishable to it. -/
def agreesAt (env envB : LiveEnv) (p : String) : Prop :=
  envB.urlOf p = env.urlOf p ∧ envB.entry p = env.entry p ∧
  envB.transportTag = env.transportTag ∧ envB.now = env.now ∧
  envB.allowStale = env.allowStale ∧ envB.maxStaleSeconds = env.maxStaleSeconds ∧
  ∀ url, env.urlOf p = some url →
    envB.fetchOk url = env.fetchOk url ∧ envB.failureOf url = env.failureOf url

/-- Modelled from the spec: HTTP transport selection is a function of the
environment value; absence or an invalid value falls through to the native
transport, and per the offline tests a selected curl transport without a curl
binary on PATH also falls back to native at fetch time (spec section 4.B and
test yield_live_curl_missing_binary_fallback). -/
def selectTransport (envVal : Option String) (curlOnPath : Bool) : String :=
  match envVal with
  | some "curl" => if curlOnPath then "curl" else "zig"
  | some "zig" => "zig"
  | _ => "zig"

/-- Modelled from the spec: the live dispatch run under the transport chosen
from the environment value and the availability of the curl binary. -/
def liveDispatchWithTransport (env : LiveEnv) (envVal : Option String)
    (curlOnPath : Bool) (liveMode : String) (liveProvider : Option String)
    (provider : String) : LiveResp :=
  liveDispatch { env with transportTag := selectTransport envVal curlOnPath }
    liveMode liveProvider provider

/-- Substring containment, stated as an explicit decomposition. -/
def strContains (s pat : String) : Prop := ∃ a b, s = a ++ pat ++ b

/-- A concrete world where every provider URL is configured and reachable and
the cache is empty. -/
def envReachable : LiveEnv :=
  ⟨fun _ => some "http://pools", fun _ => true, fun _ => .unreachable,
    "curl", 5, true, 60, fun _ => none⟩

/-- A concrete world with no configured URLs and an empty cache. -/
def envNoUrls : LiveEnv :=
  ⟨fun _ => none, fun _ => false, fun _ => .missing_url, "curl", 5, true, 60,
    fun _ => none⟩

/-- A concrete world where only the defillama URL is configured; every fetch
that does run succeeds. -/
def envOnlyLlama : LiveEnv :=
  ⟨fun p => if p == "defillama" then some "http://llama" else none,
    fun _ => true, fun _ => .unreachable, "curl", 5, true, 60, fun _ => none⟩

/-! ### Provider registry and quote engine

Modelled from the spec (sections 3 and 4.I) and the literal quote outputs the
spec scenarios and the offline tests pin down: the zig-core binary is absent
from src, so the static provider records carry the synthesized quote
parameters (fee bps, eta seconds, output per million input units) that
reproduce those outputs. -/

/-- A provider registry record. -/
structure ProviderRec where
  name : String
  isBridge : Bool
  isSwap : Bool
  supportsExactOutput : Bool
  feeBps : Nat
  etaSeconds : Nat
  outPerMillion : Nat
deriving DecidableEq

/-- The lifi bridge provider record. -/
def lifiRec : ProviderRec := ⟨"lifi", true, false, false, 7, 300, 999300⟩

/-- The across bridge provider record (default bridge-route provider). -/
def acrossRec : ProviderRec := ⟨"across", true, false, false, 4, 240, 999600⟩

/-- The bungee bridge provider record (fastest eta). -/
def bungeeRec : ProviderRec := ⟨"bungee", true, false, false, 9, 150, 999100⟩

/-- The 1inch swap provider record (default swap-route provider, exact-input
only). -/
def oneinchRec : ProviderRec := ⟨"1inch", false, true, false, 11, 60, 998901⟩

/-- The uniswap swap provider record (exact-output capable). -/
def uniswapRec : ProviderRec := ⟨"uniswap", false, true, true, 30, 60, 998501⟩

/-- Modelled from the spec: the static compiled-in provider registry in its
declared total order (spec sections 2.D and 4.I). -/
def providerRegistry : List ProviderRec :=
  [lifiRec, acrossRec, bungeeRec, oneinchRec, uniswapRec]

/-- Quote routes. -/
inductive Route
  | bridge
  | swap
deriving DecidableEq

/-- Whether a provider record supports a route. -/
def supportsRoute : Route → ProviderRec → Bool
  | .bridge, r => r.isBridge
  | .swap, r => r.isSwap

/-- Modelled from the spec: case-insensitive provider lookup after trim
(spec section 4.C/D). -/
def lookupProvider (name : String) : Option ProviderRec :=
  providerRegistry.find? (fun r => r.name == normalizeTok name)

/-- Modelled from the spec: the deterministic default provider of each route
(spec section 4.I; the offline fallback tests pin across for the bridge route
and 1inch for the swap route). -/
def defaultProviderFor : Route → ProviderRec
  | .bridge => acrossRec
  | .swap => oneinchRec

/-- Modelled from the spec: the default exact-output-capable provider the
engine selects when no provider is pinned (spec section 4.I). -/
def defaultExactOutputProvider : ProviderRec :=
  (providerRegistry.find? (fun r => r.isSwap && r.supportsExactOutput)).getD
    uniswapRec

/-- Modelled from the spec: normalization of the providers CSV: trim tokens,
drop empties, case-fold, collapse duplicates in order (spec section 4.I). -/
def providersTokens (csv : String) : List String :=
  dedupKeys ((selectTokens csv).map strLower)

/-- Modelled from the spec: parsing the providers CSV; zero tokens after trim
is validation error code 2 (spec section 4.C/D). -/
def parseProvidersCsv (csv : String) : Except Nat (List String) :=
  let toks := providersTokens csv
  if toks.isEmpty then .error 2 else .ok toks

/-- Modelled from the spec: the first listed name that exists in the registry
and supports the operation (spec section 4.I). -/
def chooseListed (route : Route) (names : List String) : Option ProviderRec :=
  (names.filterMap (fun n => (lookupProvider n).filter (supportsRoute route))).head?

/-- A synthesized quote. -/
structure Quote where
  provider : String
  source : String
  tradeType : String
  estimatedAmountOut : Nat
deriving DecidableEq

/-- A quote engine outcome. -/
inductive QuoteResp
  | ok (q : Quote)
  | err (code : Nat) (msg : String)
deriving DecidableEq

/-- Modelled from the spec: the exact-input quote a provider synthesizes from
its registry parameters. -/
def quoteFor (r : ProviderRec) (src : String) (amount : Nat) : Quote :=
  ⟨r.name, src, "exact-input", amount * r.outPerMillion / 1000000⟩

/-- Modelled from the spec: quote selection from an ordered providers
preference list: the first listed registry provider supporting the route, or
the deterministic route default; either way tagged source=providers
(spec section 4.I, ordered-preference mode). -/
def quoteWithProviders (route : Route) (csv : String) (amount : Nat) : QuoteResp :=
  match parseProvidersCsv csv with
  | .error c => .err c "providers must not be blank"
  | .ok names =>
    let r := (chooseListed route names).getD (defaultProviderFor route)
    .ok (quoteFor r "providers" amount)

/-- Modelled from the spec: bridgeQuote in ordered-preference mode. -/
def bridgeQuoteWithProviders (csv : String) (amount : Nat) : QuoteResp :=
  quoteWithProviders .bridge csv amount

/-- Modelled from the spec: swapQuote in ordered-preference mode. -/
def swapQuoteWithProviders (csv : String) (amount : Nat) : QuoteResp :=
  quoteWithProviders .swap csv amount

/-- Modelled from the spec: the message of the capability error raised when a
pinned provider lacks exact-output support (spec section 4.I). -/
def exactOutputMsg (name : String) : String :=
  "provider " ++ name ++ " does not support exact-output trade type"

/-- Modelled from the spec: swapQuote with trade type exact-output and a
pinned provider: unknown or non-swap names are code 13, providers lacking
exact-output capability are code 13 with exact-output context, supported
providers echo the requested output amount (spec section 4.I). -/
def swapQuoteExactOutputPinned (name : String) (amountOut : Nat) : QuoteResp :=
  match lookupProvider name with
  | none => .err 13 ("unknown provider: " ++ name)
  | some r =>
    if !r.isSwap then .err 13 ("unknown provider: " ++ name)
    else if r.supportsExactOutput then
      .ok ⟨r.name, "provider", "exact-output", amountOut⟩
    else .err 13 (exactOutputMsg r.name)

/-- Modelled from the spec: swapQuote with trade type exact-output and no
pinned provider: the engine selects the default exact-output-capable provider
and tags the quote source=default_exact_output (spec section 4.I). -/
def swapQuoteExactOutputDefault (amountOut : Nat) : QuoteResp :=
  .ok ⟨defaultExactOutputProvider.name, "default_exact_output", "exact-output",
    amountOut⟩

/-! ### Dispatcher envelope

Modelled from the spec (sections 4.A/4.J and 6) and the shipped tests: the
zig-core binary is absent from src.  The offline and smoke tests pin the
cacheGet status values to hit and stale (offline.py line 3985, smoke.py line
67), so the cacheGet handler reports the cache lookup outcome as the
top-level status rather than ok/error. -/

/-- Outcome of a cacheGet lookup. -/
inductive CacheLookupResult
  | hit
  | stale
  | miss
deriving DecidableEq

/-- Modelled from the spec: the status string the cacheGet action reports, as
pinned by the offline and smoke tests (hit or stale for present entries). -/
def cacheGetStatus : CacheLookupResult → String
  | .hit => "hit"
  | .stale => "stale"
  | .miss => "miss"

/-- A dispatcher request paired with the world it runs against, covering the
modelled handlers. -/
inductive Request
  | cacheGetReq (st : CacheLookupResult)
  | liveReq (env : LiveEnv) (liveMode : String) (liveProvider : Option String)
      (provider : String)
  | bridgeProvidersReq (csv : String) (amount : Nat)
  | swapProvidersReq (csv : String) (amount : Nat)
  | swapExactOutputPinnedReq (name : String) (amountOut : Nat)
  | swapExactOutputDefaultReq (amountOut : Nat)
  | unknownActionReq (name : String)

/-- Whether a request addresses the cacheGet action. -/
def isCacheGetReq : Request → Bool
  | .cacheGetReq _ => true
  | _ => false

/-- Modelled from the spec: the top-level status field of the single JSON
object the dispatcher emits for a request (spec sections 4.A and 6, with the
cacheGet statuses the tests pin). -/
def responseStatus : Request → String
  | .cacheGetReq st => cacheGetStatus st
  | .liveReq env m lp p =>
    match liveDispatch env m lp p with
    | .ok _ => "ok"
    | .err _ _ => "error"
  | .bridgeProvidersReq csv a =>
    match bridgeQuoteWithProviders csv a with
    | .ok _ => "ok"
    | .err _ _ => "error"
  | .swapProvidersReq csv a =>
    match swapQuoteWithProviders csv a with
    | .ok _ => "ok"
    | .err _ _ => "error"
  | .swapExactOutputPinnedReq n a =>
    match swapQuoteExactOutputPinned n a with
    | .ok _ => "ok"
    | .err _ _ => "error"
  | .swapExactOutputDefaultReq a =>
    match swapQuoteExactOutputDefault a with
    | .ok _ => "ok"
    | .err _ _ => "error"
  | .unknownActionReq _ => "error"

/-! ### FastAPI gateway (apps/api/main.py)

Direct embedding of the read endpoints of apps/api/main.py.  JSON text
parsing is the standard library there, so it enters the model as an abstract
parse function; a value on which it returns none is a column that does not
parse as JSON. -/

/-- A Python JSON value. -/
inductive PyJson
  | null
  | bool (b : Bool)
  | num (n : Int)
  | str (s : String)
  | arr (elems : List PyJson)
  | obj (fields : List (String × PyJson))

/-- Python truthiness of a JSON value, as used by the `or {}` default in
main.py. -/
def pyTruthy : PyJson → Bool
  | .null => false
  | .bool b => b
  | .num n => n != 0
  | .str s => s != ""
  | .arr xs => !xs.isEmpty
  | .obj fs => !fs.isEmpty

/-- `_load_json` from apps/api/main.py lines 51-57: None stays None and a
JSON decode error is swallowed into None. -/
def load_json (parse : String → Option PyJson) : Option String → Option PyJson
  | none => none
  | some s =>
    match parse s with
    | some j => some j
    | none => none

/-- The `or {}` default applied to the evidence field in main.py. -/
def orEmptyObj (v : Option PyJson) : PyJson :=
  match v with
  | some j => if pyTruthy j then j else .obj []
  | none => .obj []

/-- A strategies table row as selected in main.py. -/
structure StrategyRow where
  id : String
  template : String
  spec_json : Option String
  status : String
  created_at : String
  updated_at : String

/-- A rendered strategy object of the /api/strategies response. -/
structure StrategyOut where
  id : String
  template : String
  spec : Option PyJson
  status : String
  createdAt : String
  updatedAt : String

/-- An executions table row as selected in main.py. -/
structure ExecutionRow where
  id : String
  strategy_id : String
  mode : String
  status : String
  payload_json : Option String
  evidence_json : Option String
  created_at : String

/-- A rendered execution object of the /api/executions response. -/
structure ExecutionOut where
  id : String
  strategyId : String
  mode : String
  status : String
  payload : Option PyJson
  evidence : PyJson
  createdAt : String

/-- The HTTP response of a list endpoint: FastAPI status code, body status
field and rendered rows. -/
structure ListResponse (α : Type) where
  httpStatus : Nat
  status : String
  items : List α

/-- Row rendering of list_strategies in main.py lines 197-207. -/
def renderStrategy (parse : String → Option PyJson) (row : StrategyRow) :
    StrategyOut :=
  ⟨row.id, row.template, load_json parse row.spec_json, row.status,
    row.created_at, row.updated_at⟩

/-- Row rendering of list_executions in main.py lines 247-258. -/
def renderExecution (parse : String → Option PyJson) (row : ExecutionRow) :
    ExecutionOut :=
  ⟨row.id, row.strategy_id, row.mode, row.status,
    load_json parse row.payload_json,
    orEmptyObj (load_json parse row.evidence_json), row.created_at⟩

/-- GET /api/strategies from main.py lines 191-208: the handler returns
normally for every row set, so FastAPI answers 200 with status ok. -/
def list_strategies (parse : String → Option PyJson) (rows : List StrategyRow) :
    ListResponse StrategyOut :=
  ⟨200, "ok", rows.map (renderStrategy parse)⟩

/-- GET /api/executions from main.py lines 240-259. -/
def list_executions (parse : String → Option PyJson) (rows : List ExecutionRow) :
    ListResponse ExecutionOut :=
  ⟨200, "ok", rows.map (renderExecution parse)⟩

/-- A JSON parse function that fails on every string (a world where every
text column is unparseable). -/
def parseNone : String → Option PyJson := fun _ => none

/-- A strategies row whose spec_json column does not parse as JSON. -/
def badStrategyRow : StrategyRow :=
  ⟨"s1", "tmpl", some "not json", "draft", "t0", "t1"⟩

/-- An executions row whose payload_json and evidence_json columns do not
parse as JSON. -/
def badExecutionRow : ExecutionRow :=
  ⟨"e1", "s1", "paper", "done", some "not json", some "also bad", "t0"⟩

/-! ## Theorems -/

/-- Membership under the seen-accumulator deduplication. -/
theorem mem_dedupSeen (a : String) :
    ∀ (l seen : List String), a ∈ dedupSeen l seen ↔ a ∈ l ∧ a ∉ seen := by
  intro l
  induction l with
  | nil => intro seen; simp [dedupSeen]
  | cons k ks ih =>
    intro seen
    by_cases hk : k ∈ seen
    · rw [dedupSeen, if_pos hk, ih]
      constructor
      · rintro ⟨ha, hs⟩
        exact ⟨List.mem_cons_of_mem _ ha, hs⟩
      · rintro ⟨ha, hs⟩
        rcases List.mem_cons.1 ha with rfl | ha
        · exact absurd hk hs
        · exact ⟨ha, hs⟩
    · rw [dedupSeen, if_neg hk]
      constructor
      · intro hmem
        rcases List.mem_cons.1 hmem with rfl | hmem
        · exact ⟨List.mem_cons_self _ _, hk⟩
        · obtain ⟨ha, hs⟩ := (ih (k :: seen)).1 hmem
          exact ⟨List.mem_cons_of_mem _ ha,
            fun hcon => hs (List.mem_cons_of_mem _ hcon)⟩
      · rintro ⟨ha, hs⟩
        rcases List.mem_cons.1 ha with rfl | ha
        · exact List.mem_cons_self _ _
        · by_cases hak : a = k
          · subst hak; exact List.mem_cons_self _ _
          · refine List.mem_cons_of_mem _ ((ih (k :: seen)).2 ⟨ha, ?_⟩)
            intro hcon
            rcases List.mem_cons.1 hcon with h | h
            · exact hak h
            · exact hs h

/-- The seen-accumulator deduplication yields a duplicate-free list. -/
theorem nodup_dedupSeen : ∀ (l seen : List String), (dedupSeen l seen).Nodup := by
  intro l
  induction l with
  | nil => intro seen; simp [dedupSeen]
  | cons k ks ih =>
    intro seen
    by_cases hk : k ∈ seen
    · rw [dedupSeen, if_pos hk]; exact ih seen
    · rw [dedupSeen, if_neg hk]
      refine List.nodup_cons.2 ⟨?_, ih (k :: seen)⟩
      intro hmem
      exact ((mem_dedupSeen k ks (k :: seen)).1 hmem).2 (List.mem_cons_self _ _)

/-- Filtering a list to the elements where an optional map fires does not
change its filterMap image. -/
theorem filterMap_filter_isSome {α β : Type} (f : α → Option β) (l : List α) :
    (l.filter (fun a => (f a).isSome)).filterMap f = l.filterMap f := by
  induction l with
  | nil => rfl
  | cons x xs ih =>
    cases hx : f x with
    | none => simp [List.filter_cons, List.filterMap_cons, hx, ih]
    | some b => simp [List.filter_cons, List.filterMap_cons, hx, ih]

/-- Membership in the canonical key list of a token list is membership of a
normalized token resolving to that canonical key. -/
theorem mem_selectKeysOfTokens (al : List (String × String)) (ts : List String)
    (c : String) :
    c ∈ selectKeysOfTokens al ts ↔
      ∃ n ∈ ts.map normalizeTok, aliasLookup al n = some c := by
  unfold selectKeysOfTokens dedupKeys
  rw [mem_dedupSeen]
  simp only [List.not_mem_nil, not_false_iff, and_true]
  rw [List.mem_filterMap]
  constructor
  · rintro ⟨a, ha, hr⟩
    exact ⟨normalizeTok a, List.mem_map_of_mem _ ha, hr⟩
  · rintro ⟨n, hn, hl⟩
    obtain ⟨a, ha, rfl⟩ := List.mem_map.1 hn
    exact ⟨a, ha, hl⟩

/-- The key list of a projected object is the selected key list filtered to
the keys the row carries. -/
theorem map_fst_projectObj {α : Type} (keys : List String)
    (row : List (String × α)) :
    (projectObj keys row).map Prod.fst =
      keys.filter (fun k => (row.find? (fun p => p.fst == k)).isSome) := by
  induction keys with
  | nil => rfl
  | cons k ks ih =>
    cases hf : row.find? (fun p => p.fst == k) with
    | none =>
      simp only [projectObj, List.filterMap_cons, List.filter_cons, hf,
        Option.map_none', Option.isSome_none, Bool.false_eq_true, if_false]
      exact ih
    | some p =>
      simp only [projectObj, List.filterMap_cons, List.filter_cons, hf,
        Option.map_some', Option.isSome_some, if_true, List.map_cons]
      exact congrArg (List.cons k) ih

/-- C6: a select parameter that is present but yields zero valid tokens after
trimming produces error code 2; a select consisting entirely of unknown
tokens produces an empty projected object; and unknown tokens supplied
alongside valid tokens are silently dropped, leaving exactly the canonical
keys of the valid tokens. -/
theorem select_validation_and_projection {α : Type}
    (al : List (String × String)) (s : String) (row : List (String × α)) :
    ((selectTokens s).isEmpty = true → parseSelect al s = .error 2) ∧
    ((selectTokens s).isEmpty = false →
      (∀ t ∈ selectTokens s, resolveTok al t = none) →
      parseSelect al s = .ok [] ∧ projectObj ([] : List String) row = []) ∧
    (∀ ks, parseSelect al s = .ok ks →
      ks = selectKeysOfTokens al
        ((selectTokens s).filter (fun t => (resolveTok al t).isSome))) := by
  refine ⟨?_, ?_, ?_⟩
  · intro h
    simp [parseSelect, h]
  · intro h hall
    have hnil : (selectTokens s).filterMap (resolveTok al) = [] := by
      simp only [List.filterMap_eq_nil_iff]
      exact hall
    constructor
    · simp [parseSelect, h, selectKeysOfTokens, hnil, dedupKeys, dedupSeen]
    · rfl
  · intro ks hks
    cases hempty : (selectTokens s).isEmpty with
    | true => simp [parseSelect, hempty] at hks
    | false =>
      simp only [parseSelect, hempty, Bool.false_eq_true, if_false,
        Except.ok.injEq] at hks
      subst hks
      unfold selectKeysOfTokens
      rw [filterMap_filter_isSome]

/-- C6 witness: the blank select, the all-unknown select and the mixed select
of the chainsTop action behave as stated. -/
theorem select_validation_and_projection_witness :
    ((selectTokens "   ").isEmpty = true ∧
      parseSelect chainsTopAliases "   " = .error 2) ∧
    ((selectTokens "notAField").isEmpty = false ∧
      (∀ t ∈ selectTokens "notAField", resolveTok chainsTopAliases t = none) ∧
      parseSelect chainsTopAliases "notAField" = .ok [] ∧
      projectObj ([] : List String) [("chain", (1 : Nat))] = []) ∧
    (parseSelect chainsTopAliases "chain,notAField" = .ok ["chain"] ∧
      ["chain"] = selectKeysOfTokens chainsTopAliases
        ((selectTokens "chain,notAField").filter
          (fun t => (resolveTok chainsTopAliases t).isSome))) := by
  refine ⟨⟨by decide, ?_⟩, ⟨by decide, by decide, ?_⟩, ⟨by rfl, ?_⟩⟩
  · exact (select_validation_and_projection chainsTopAliases "   "
      ([] : List (String × Nat))).1 (by decide)
  · exact (select_validation_and_projection chainsTopAliases "notAField"
      [("chain", (1 : Nat))]).2.1 (by decide) (by decide)
  · exact (select_validation_and_projection chainsTopAliases "chain,notAField"
      [("chain", (1 : Nat))]).2.2 ["chain"] (by rfl)

/-- C7: the projected key set of a select token list is invariant under
permutation, duplication and case changes of the tokens; the canonical key
list is duplicate-free; and an alias and its canonical name coalesce to a
single canonical key. -/
theorem select_key_set_invariance {α : Type} (al : List (String × String))
    (ts tsB : List String) (row : List (String × α))
    (h1 : ∀ n ∈ ts.map normalizeTok, n ∈ tsB.map normalizeTok)
    (h2 : ∀ n ∈ tsB.map normalizeTok, n ∈ ts.map normalizeTok) :
    (∀ c, c ∈ selectKeysOfTokens al ts ↔ c ∈ selectKeysOfTokens al tsB) ∧
    (∀ k, k ∈ (projectObj (selectKeysOfTokens al ts) row).map Prod.fst ↔
      k ∈ (projectObj (selectKeysOfTokens al tsB) row).map Prod.fst) ∧
    (selectKeysOfTokens al ts).Nodup ∧
    (∀ a b c, a ∈ ts → b ∈ ts → resolveTok al a = some c →
      resolveTok al b = some c → (selectKeysOfTokens al ts).count c = 1) := by
  have hmem : ∀ c, c ∈ selectKeysOfTokens al ts ↔ c ∈ selectKeysOfTokens al tsB := by
    intro c
    rw [mem_selectKeysOfTokens, mem_selectKeysOfTokens]
    constructor
    · rintro ⟨n, hn, hl⟩; exact ⟨n, h1 n hn, hl⟩
    · rintro ⟨n, hn, hl⟩; exact ⟨n, h2 n hn, hl⟩
  have hnodup : (selectKeysOfTokens al ts).Nodup := nodup_dedupSeen _ _
  refine ⟨hmem, ?_, hnodup, ?_⟩
  · intro k
    rw [map_fst_projectObj, map_fst_projectObj, List.mem_filter,
      List.mem_filter, hmem k]
  · intro a b c ha _ hra _
    refine List.count_eq_one_of_mem hnodup ?_
    rw [mem_selectKeysOfTokens]
    exact ⟨normalizeTok a, List.mem_map_of_mem _ ha, hra⟩

/-- C7 witness: duplicating and case-changing chainsTop select tokens leaves
the key set unchanged, and the alias chainId coalesces with chain_id. -/
theorem select_key_set_invariance_witness :
    (∀ n ∈ (["chain_id", "chainId", "CHAIN_ID"].map normalizeTok),
      n ∈ (["chainId", "chain_id"].map normalizeTok)) ∧
    (∀ n ∈ (["chainId", "chain_id"].map normalizeTok),
      n ∈ (["chain_id", "chainId", "CHAIN_ID"].map normalizeTok)) ∧
    (∀ c, c ∈ selectKeysOfTokens chainsTopAliases ["chain_id", "chainId", "CHAIN_ID"] ↔
      c ∈ selectKeysOfTokens chainsTopAliases ["chainId", "chain_id"]) ∧
    (selectKeysOfTokens chainsTopAliases ["chain_id", "chainId", "CHAIN_ID"]).Nodup ∧
    (selectKeysOfTokens chainsTopAliases
      ["chain_id", "chainId", "CHAIN_ID"]).count "chain_id" = 1 := by
  have h := select_key_set_invariance chainsTopAliases
    ["chain_id", "chainId", "CHAIN_ID"] ["chainId", "chain_id"]
    [("chain_id", (1 : Nat))] (by decide) (by decide)
  exact ⟨by decide, by decide, h.1, h.2.2.1,
    h.2.2.2 "chain_id" "chainId" "chain_id" (by decide) (by decide)
      (by decide) (by decide)⟩

/-- A successful single fetch is a live response at the fetched URL. -/
theorem attemptLive_ok (env : LiveEnv) (p url : String) (r : LiveOk)
    (h : attemptLive env p url = .ok r) :
    r = ⟨.live, p, env.now, url⟩ ∧ env.fetchOk url = true := by
  unfold attemptLive at h
  split at h
  next hcond => exact ⟨(Except.ok.inj h).symm, hcond⟩
  next => exact absurd h (by simp)

/-- A successful provider attempt is a live fetch at the configured URL or an
in-TTL cache entry of the provider fingerprint. -/
theorem attemptProvider_ok (env : LiveEnv) (p : String) (r : LiveOk)
    (h : attemptProvider env p = .ok r) :
    ∃ url, env.urlOf p = some url ∧
      ((r = ⟨.live, p, env.now, url⟩ ∧ env.fetchOk url = true) ∨
       (∃ e, env.entry p = some e ∧
          r = ⟨.cache, e.provider, e.fetchedAtUnix, e.url⟩)) := by
  unfold attemptProvider at h
  split at h
  next hu => exact absurd h (by simp)
  next url hu =>
    refine ⟨url, hu, ?_⟩
    split at h
    next e he =>
      split at h
      next hc => exact Or.inr ⟨e, he, (Except.ok.inj h).symm⟩
      next hc => exact Or.inl (attemptLive_ok env p url r h)
    next he => exact Or.inl (attemptLive_ok env p url r h)

/-- A successful provider attempt reports the attempted provider and a live or
cache source, as long as cache entries of the fingerprint track it. -/
theorem attemptProvider_ok_fields (env : LiveEnv) (p : String) (r : LiveOk)
    (h : attemptProvider env p = .ok r)
    (hc : ∀ e, env.entry p = some e → e.provider = p) :
    r.sourceProvider = p ∧ (r.source = .live ∨ r.source = .cache) := by
  obtain ⟨url, _, hcase | hcase⟩ := attemptProvider_ok env p r h
  · obtain ⟨rfl, _⟩ := hcase
    exact ⟨rfl, Or.inl rfl⟩
  · obtain ⟨e, he, rfl⟩ := hcase
    exact ⟨hc e he, Or.inr rfl⟩

/-- With no usable stale entry, the forced-mode failure path is the code-12
unavailable error. -/
theorem staleOrUnavailable_no_stale (env : LiveEnv) (p : String)
    (h : env.allowStale = true →
      ∀ e, env.entry p = some e → entryStale env e = false) :
    staleOrUnavailable env p = .err 12 (unavailableMsg p env.transportTag) := by
  unfold staleOrUnavailable
  split
  next hs =>
    split
    next e he =>
      rw [h hs e he]
      simp
    next he => rfl
  next hs => rfl

/-- A forced-mode failure with no usable stale entry is the code-12
unavailable error. -/
theorem fetchForcedMode_err (env : LiveEnv) (p : String) (f : FetchFailure)
    (hfail : attemptProvider env p = .error f)
    (hnostale : env.allowStale = true →
      ∀ e, env.entry p = some e → entryStale env e = false) :
    fetchForcedMode env p = .err 12 (unavailableMsg p env.transportTag) := by
  unfold fetchForcedMode
  rw [hfail]
  exact staleOrUnavailable_no_stale env p hnostale

/-- The forced-provider path reads the world only at the pinned provider: two
worlds agreeing there produce the same response, so no other provider is
consulted. -/
theorem fetchForcedMode_agreesAt (env envB : LiveEnv) (p : String)
    (h : agreesAt env envB p) :
    fetchForcedMode envB p = fetchForcedMode env p := by
  obtain ⟨hurl, hent, htr, hnow, has, hmax, hf⟩ := h
  unfold fetchForcedMode attemptProvider attemptLive staleOrUnavailable
    entryFresh entryStale unavailableMsg
  simp only [hurl, hent, htr, hnow, has, hmax]
  cases hu : env.urlOf p with
  | none => rfl
  | some url =>
    obtain ⟨hfo, hff⟩ := hf url hu
    simp only [hfo, hff]

/-- A successful stale fallback serves a recorded entry as stale_cache. -/
theorem staleOrUnavailable_ok (env : LiveEnv) (p : String) (r : LiveOk)
    (h : staleOrUnavailable env p = .ok r) :
    ∃ e, env.entry p = some e ∧
      r = ⟨.stale_cache, e.provider, e.fetchedAtUnix, e.url⟩ := by
  unfold staleOrUnavailable at h
  split at h
  next hs =>
    split at h
    next e he =>
      split at h
      next hc => exact ⟨e, he, (LiveResp.ok.inj h).symm⟩
      next hc => exact absurd h (by simp)
    next he => exact absurd h (by simp)
  next hs => exact absurd h (by simp)

/-- A successful terminal auto fallback is the registry response or a stale
entry of the fallback provider. -/
theorem staleOrRegistry_ok (env : LiveEnv) (p fb : String) (r : LiveOk)
    (h : staleOrRegistry env p fb = .ok r) :
    r = ⟨.registry, p, 0, ""⟩ ∨
      ∃ e, env.entry fb = some e ∧
        r = ⟨.stale_cache, e.provider, e.fetchedAtUnix, e.url⟩ := by
  unfold staleOrRegistry registryResp at h
  split at h
  next hs =>
    split at h
    next e he =>
      split at h
      next hc => exact Or.inr ⟨e, he, (LiveResp.ok.inj h).symm⟩
      next hc => exact Or.inl (LiveResp.ok.inj h).symm
    next he => exact Or.inl (LiveResp.ok.inj h).symm
  next hs => exact Or.inl (LiveResp.ok.inj h).symm

/-- Every successful forced-mode response is a provider attempt or a stale
entry of the pinned provider. -/
theorem fetchForcedMode_ok (env : LiveEnv) (p : String) (r : LiveOk)
    (h : fetchForcedMode env p = .ok r) :
    attemptProvider env p = .ok r ∨
      ∃ e, env.entry p = some e ∧
        r = ⟨.stale_cache, e.provider, e.fetchedAtUnix, e.url⟩ := by
  unfold fetchForcedMode at h
  split at h
  next r0 ha =>
    exact Or.inl (ha.trans (congrArg Except.ok (LiveResp.ok.inj h)))
  next f ha =>
    exact Or.inr (staleOrUnavailable_ok env p r h)

/-- Every successful auto-selection response is a provider attempt of the
primary or of defillama, the registry response, or a stale defillama entry. -/
theorem fetchAutoProvider_ok (env : LiveEnv) (primary : String) (r : LiveOk)
    (h : fetchAutoProvider env primary = .ok r) :
    attemptProvider env primary = .ok r ∨
    attemptProvider env "defillama" = .ok r ∨
    r = ⟨.registry, primary, 0, ""⟩ ∨
    ∃ e, env.entry "defillama" = some e ∧
      r = ⟨.stale_cache, e.provider, e.fetchedAtUnix, e.url⟩ := by
  unfold fetchAutoProvider at h
  split at h
  next r0 ha =>
    exact Or.inl (ha.trans (congrArg Except.ok (LiveResp.ok.inj h)))
  next f ha =>
    split at h
    next r1 hb =>
      exact Or.inr (Or.inl (hb.trans (congrArg Except.ok (LiveResp.ok.inj h))))
    next g hb =>
      rcases staleOrRegistry_ok env primary "defillama" r h with hr | hr
      · exact Or.inr (Or.inr (Or.inl hr))
      · exact Or.inr (Or.inr (Or.inr hr))

/-- Every successful response of the liveMode state machine is a registry
response, a successful provider attempt, or a stale entry of some provider. -/
theorem liveDispatch_ok_cases (env : LiveEnv) (m : String) (lp : Option String)
    (prov : String) (r : LiveOk) (h : liveDispatch env m lp prov = .ok r) :
    (∃ p, r = ⟨.registry, p, 0, ""⟩) ∨
    (∃ p, attemptProvider env p = .ok r) ∨
    (∃ p e, env.entry p = some e ∧
      r = ⟨.stale_cache, e.provider, e.fetchedAtUnix, e.url⟩) := by
  have hforced : ∀ p, fetchForcedMode env p = .ok r →
      (∃ p, r = ⟨.registry, p, 0, ""⟩) ∨
      (∃ p, attemptProvider env p = .ok r) ∨
      (∃ p e, env.entry p = some e ∧
        r = ⟨.stale_cache, e.provider, e.fetchedAtUnix, e.url⟩) := by
    intro p hp
    rcases fetchForcedMode_ok env p r hp with ha | ⟨e, he, hr⟩
    · exact Or.inr (Or.inl ⟨p, ha⟩)
    · exact Or.inr (Or.inr ⟨p, e, he, hr⟩)
  have hauto : fetchAutoProvider env prov = .ok r →
      (∃ p, r = ⟨.registry, p, 0, ""⟩) ∨
      (∃ p, attemptProvider env p = .ok r) ∨
      (∃ p e, env.entry p = some e ∧
        r = ⟨.stale_cache, e.provider, e.fetchedAtUnix, e.url⟩) := by
    intro hp
    rcases fetchAutoProvider_ok env prov r hp with ha | ha | ha | ⟨e, he, hr⟩
    · exact Or.inr (Or.inl ⟨prov, ha⟩)
    · exact Or.inr (Or.inl ⟨"defillama", ha⟩)
    · exact Or.inl ⟨prov, ha⟩
    · exact Or.inr (Or.inr ⟨"defillama", e, he, hr⟩)
  unfold liveDispatch registryResp at h
  split at h
  next => exact Or.inl ⟨prov, (LiveResp.ok.inj h).symm⟩
  next =>
    split at h
    next =>
      split at h
      next => exact hauto h
      next => exact hforced (lp.getD "defillama") h
    next =>
      split at h
      next r0 hfa =>
        exact hauto (hfa.trans (congrArg LiveResp.ok (LiveResp.ok.inj h)))
      next c msg hfa => exact Or.inl ⟨prov, (LiveResp.ok.inj h).symm⟩

/-- C8: for every successful response of the live-data layer, the source is
registry exactly when fetched_at_unix is 0 and the source URL is empty; live,
cache and stale_cache responses carry a positive fetched_at_unix and the
originating URL. -/
theorem live_source_invariant (env : LiveEnv) (m : String) (lp : Option String)
    (prov : String) (r : LiveOk)
    (hnow : 0 < env.now)
    (hent : ∀ p e, env.entry p = some e → 0 < e.fetchedAtUnix)
    (h : liveDispatch env m lp prov = .ok r) :
    ((r.source = .registry) ↔ (r.fetchedAtUnix = 0 ∧ r.sourceUrl = "")) ∧
    (r.source = .live → 0 < r.fetchedAtUnix ∧
      ∃ p, env.urlOf p = some r.sourceUrl) ∧
    ((r.source = .cache ∨ r.source = .stale_cache) →
      0 < r.fetchedAtUnix ∧ ∃ p e, env.entry p = some e ∧
        r.sourceUrl = e.url ∧ r.fetchedAtUnix = e.fetchedAtUnix) := by
  rcases liveDispatch_ok_cases env m lp prov r h with ⟨p, rfl⟩ | ⟨p, hp⟩ |
    ⟨p, e, hpe, rfl⟩
  · refine ⟨⟨fun _ => ⟨rfl, rfl⟩, fun _ => rfl⟩, ?_, ?_⟩
    · intro hl; simp at hl
    · intro hl; rcases hl with hl | hl <;> simp at hl
  · obtain ⟨url, hurl, hcase | hcase⟩ := attemptProvider_ok env p r hp
    · obtain ⟨rfl, _⟩ := hcase
      refine ⟨⟨?_, ?_⟩, ?_, ?_⟩
      · intro hl; simp at hl
      · intro hz; exact absurd hz.1 (Nat.pos_iff_ne_zero.1 hnow)
      · intro _; exact ⟨hnow, p, hurl⟩
      · intro hl; rcases hl with hl | hl <;> simp at hl
    · obtain ⟨e, he, rfl⟩ := hcase
      have hfe : 0 < e.fetchedAtUnix := hent p e he
      refine ⟨⟨?_, ?_⟩, ?_, ?_⟩
      · intro hl; simp at hl
      · intro hz; exact absurd hz.1 (Nat.pos_iff_ne_zero.1 hfe)
      · intro hl; simp at hl
      · intro _; exact ⟨hfe, p, e, he, rfl, rfl⟩
  · have hfe : 0 < e.fetchedAtUnix := hent p e hpe
    refine ⟨⟨?_, ?_⟩, ?_, ?_⟩
    · intro hl; simp at hl
    · intro hz; exact absurd hz.1 (Nat.pos_iff_ne_zero.1 hfe)
    · intro hl; simp at hl
    · intro _; exact ⟨hfe, p, e, hpe, rfl, rfl⟩

/-- C8 witness: the forced defillama fetch in a reachable world with an empty
cache satisfies the invariant at a live response. -/
theorem live_source_invariant_witness :
    0 < envReachable.now ∧
    (∀ p e, envReachable.entry p = some e → 0 < e.fetchedAtUnix) ∧
    liveDispatch envReachable "live" none "morpho" =
      .ok ⟨.live, "defillama", 5, "http://pools"⟩ ∧
    (((LiveOk.mk .live "defillama" 5 "http://pools").source = .registry) ↔
      ((LiveOk.mk .live "defillama" 5 "http://pools").fetchedAtUnix = 0 ∧
        (LiveOk.mk .live "defillama" 5 "http://pools").sourceUrl = "")) := by
  have hent : ∀ p e, envReachable.entry p = some e → 0 < e.fetchedAtUnix := by
    intro p e h
    simp [envReachable] at h
  refine ⟨by decide, hent, rfl, ?_⟩
  exact (live_source_invariant envReachable "live" none "morpho"
    ⟨.live, "defillama", 5, "http://pools"⟩ (by decide) hent rfl).1

/-- C2: a live-eligible action under liveMode=live with a pinned liveProvider
whose URL is missing, unreachable or non-JSON (and no usable stale entry)
answers the code-12 error whose message embeds source unavailable, the pinned
provider and the selected transport, and no other provider is consulted. -/
theorem forced_live_failure_error12 (env : LiveEnv) (p prov : String)
    (f : FetchFailure)
    (hp : (p == "auto") = false)
    (hfail : attemptProvider env p = .error f)
    (hnostale : env.allowStale = true →
      ∀ e, env.entry p = some e → entryStale env e = false) :
    liveDispatch env "live" (some p) prov =
      .err 12 (unavailableMsg p env.transportTag) ∧
    strContains (unavailableMsg p env.transportTag) "source unavailable" ∧
    strContains (unavailableMsg p env.transportTag) ("provider=" ++ p) ∧
    strContains (unavailableMsg p env.transportTag)
      ("transport=" ++ env.transportTag) ∧
    (∀ envB, agreesAt env envB p →
      fetchForcedMode envB p = fetchForcedMode env p) := by
  have hd : liveDispatch env "live" (some p) prov = fetchForcedMode env p := by
    simp [liveDispatch, hp]
  refine ⟨hd.trans (fetchForcedMode_err env p f hfail hnostale), ?_, ?_, ?_,
    fun envB hB => fetchForcedMode_agreesAt env envB p hB⟩
  · refine ⟨"live ",
      ": provider=" ++ p ++ " transport=" ++ env.transportTag, ?_⟩
    unfold unavailableMsg
    simp only [← String.append_assoc]
    rw [show ("live " ++ "source unavailable" ++ ": provider=" : String) =
      "live source unavailable: provider=" from rfl]
  · refine ⟨"live source unavailable: ",
      " transport=" ++ env.transportTag, ?_⟩
    unfold unavailableMsg
    simp only [← String.append_assoc]
    rw [show ("live source unavailable: " ++ "provider=" : String) =
      "live source unavailable: provider=" from rfl]
  · refine ⟨"live source unavailable: provider=" ++ p ++ " ", "", ?_⟩
    unfold unavailableMsg
    rw [String.append_empty]
    simp only [← String.append_assoc]
    rw [String.append_assoc ("live source unavailable: provider=" ++ p) " "
      "transport="]
    rw [show (" " ++ "transport=" : String) = " transport=" from rfl]

/-- C2 witness: the forced aave fetch in a world with no configured URLs and
an empty cache answers the code-12 error with full context. -/
theorem forced_live_failure_error12_witness :
    (("aave" == "auto") = false) ∧
    attemptProvider envNoUrls "aave" = .error .missing_url ∧
    (liveDispatch envNoUrls "live" (some "aave") "aave" =
      .err 12 (unavailableMsg "aave" envNoUrls.transportTag) ∧
    strContains (unavailableMsg "aave" envNoUrls.transportTag)
      "source unavailable" ∧
    strContains (unavailableMsg "aave" envNoUrls.transportTag)
      ("provider=" ++ "aave") ∧
    strContains (unavailableMsg "aave" envNoUrls.transportTag)
      ("transport=" ++ envNoUrls.transportTag) ∧
    (∀ envB, agreesAt envNoUrls envB "aave" →
      fetchForcedMode envB "aave" = fetchForcedMode envNoUrls "aave")) := by
  have hnostale : envNoUrls.allowStale = true →
      ∀ e, envNoUrls.entry "aave" = some e → entryStale envNoUrls e = false := by
    intro _ e h
    simp [envNoUrls] at h
  exact ⟨by decide, rfl,
    forced_live_failure_error12 envNoUrls "aave" "aave" .missing_url
      (by decide) rfl hnostale⟩

/-- C3: under liveMode=live with liveProvider=auto, a classified failure of
the natural primary falls back to defillama without surfacing an error: the
response is ok with sourceProvider defillama. -/
theorem auto_mode_defillama_fallback (env : LiveEnv) (prov : String)
    (f : FetchFailure) (q : LiveOk)
    (hfail : attemptProvider env prov = .error f)
    (hdl : attemptProvider env "defillama" = .ok q)
    (hcache : ∀ e, env.entry "defillama" = some e → e.provider = "defillama") :
    liveDispatch env "live" (some "auto") prov = .ok q ∧
    q.sourceProvider = "defillama" ∧ (q.source = .live ∨ q.source = .cache) := by
  have hd : liveDispatch env "live" (some "auto") prov =
      fetchAutoProvider env prov := by
    simp [liveDispatch]
  have hfa : fetchAutoProvider env prov = .ok q := by
    unfold fetchAutoProvider
    rw [hfail, hdl]
  obtain ⟨h1, h2⟩ := attemptProvider_ok_fields env "defillama" q hdl hcache
  exact ⟨hd.trans hfa, h1, h2⟩

/-- C3 witness: with only the defillama URL configured, the auto morpho
request answers ok from defillama. -/
theorem auto_mode_defillama_fallback_witness :
    attemptProvider envOnlyLlama "morpho" = .error .missing_url ∧
    attemptProvider envOnlyLlama "defillama" =
      .ok ⟨.live, "defillama", 5, "http://llama"⟩ ∧
    (liveDispatch envOnlyLlama "live" (some "auto") "morpho" =
      .ok ⟨.live, "defillama", 5, "http://llama"⟩ ∧
    (LiveOk.mk .live "defillama" 5 "http://llama").sourceProvider =
      "defillama" ∧
    ((LiveOk.mk .live "defillama" 5 "http://llama").source = .live ∨
      (LiveOk.mk .live "defillama" 5 "http://llama").source = .cache)) := by
  have hcache : ∀ e, envOnlyLlama.entry "defillama" = some e →
      e.provider = "defillama" := by
    intro e h
    simp [envOnlyLlama] at h
  exact ⟨rfl, rfl,
    auto_mode_defillama_fallback envOnlyLlama "morpho" .missing_url
      ⟨.live, "defillama", 5, "http://llama"⟩ rfl rfl hcache⟩

/-- C9: with the curl transport selected but no curl binary on PATH, the
transport selection falls back to native and a forced-live defillama request
still succeeds with its provider identity preserved. -/
theorem curl_missing_binary_native_fallback (env : LiveEnv) (prov : String)
    (q : LiveOk)
    (hok : attemptProvider env "defillama" = .ok q)
    (hcache : ∀ e, env.entry "defillama" = some e → e.provider = "defillama") :
    selectTransport (some "curl") false = "zig" ∧
    liveDispatchWithTransport env (some "curl") false "live" (some "defillama")
      prov = .ok q ∧
    q.sourceProvider = "defillama" ∧ (q.source = .live ∨ q.source = .cache) := by
  have henv : attemptProvider
      { env with transportTag := selectTransport (some "curl") false }
      "defillama" = .ok q := hok
  have hd : liveDispatchWithTransport env (some "curl") false "live"
      (some "defillama") prov = fetchForcedMode
      { env with transportTag := selectTransport (some "curl") false }
      "defillama" := by
    unfold liveDispatchWithTransport
    simp [liveDispatch]
  have hff : fetchForcedMode
      { env with transportTag := selectTransport (some "curl") false }
      "defillama" = .ok q := by
    unfold fetchForcedMode
    rw [henv]
  obtain ⟨h1, h2⟩ := attemptProvider_ok_fields env "defillama" q hok hcache
  exact ⟨rfl, hd.trans hff, h1, h2⟩

/-- C9 witness: the reachable world answers the forced defillama request ok
under the curl-selected, curl-missing transport configuration. -/
theorem curl_missing_binary_native_fallback_witness :
    attemptProvider envReachable "defillama" =
      .ok ⟨.live, "defillama", 5, "http://pools"⟩ ∧
    (selectTransport (some "curl") false = "zig" ∧
    liveDispatchWithTransport envReachable (some "curl") false "live"
      (some "defillama") "morpho" =
      .ok ⟨.live, "defillama", 5, "http://pools"⟩ ∧
    (LiveOk.mk .live "defillama" 5 "http://pools").sourceProvider =
      "defillama" ∧
    ((LiveOk.mk .live "defillama" 5 "http://pools").source = .live ∨
      (LiveOk.mk .live "defillama" 5 "http://pools").source = .cache)) := by
  have hcache : ∀ e, envReachable.entry "defillama" = some e →
      e.provider = "defillama" := by
    intro e h
    simp [envReachable] at h
  exact ⟨rfl,
    curl_missing_binary_native_fallback envReachable "morpho"
      ⟨.live, "defillama", 5, "http://pools"⟩ rfl hcache⟩

/-- C4: a bridgeQuote or swapQuote providers CSV whose normalized tokens are
all absent from the provider registry falls back to the deterministic route
default (across for the bridge route, 1inch for the swap route) and the quote
is still tagged source=providers. -/
theorem providers_unknown_fallback_default (csv : String) (amount : Nat)
    (hne : providersTokens csv ≠ [])
    (hunknown : ∀ n ∈ providersTokens csv, lookupProvider n = none) :
    bridgeQuoteWithProviders csv amount =
      .ok ⟨"across", "providers", "exact-input", amount * 999600 / 1000000⟩ ∧
    swapQuoteWithProviders csv amount =
      .ok ⟨"1inch", "providers", "exact-input", amount * 998901 / 1000000⟩ := by
  have hempty : (providersTokens csv).isEmpty = false := by
    cases hq : (providersTokens csv).isEmpty
    · rfl
    · exact absurd (List.isEmpty_iff.1 hq) hne
  have hparse : parseProvidersCsv csv = .ok (providersTokens csv) := by
    simp [parseProvidersCsv, hempty]
  have hchoose : ∀ route, chooseListed route (providersTokens csv) = none := by
    intro route
    unfold chooseListed
    have hnil : (providersTokens csv).filterMap
        (fun n => (lookupProvider n).filter (supportsRoute route)) = [] := by
      rw [List.filterMap_eq_nil_iff]
      intro n hn
      rw [hunknown n hn]
      rfl
    rw [hnil]
    rfl
  refine ⟨?_, ?_⟩
  · unfold bridgeQuoteWithProviders quoteWithProviders
    rw [hparse]
    simp [hchoose Route.bridge, quoteFor, defaultProviderFor, acrossRec]
  · unfold swapQuoteWithProviders quoteWithProviders
    rw [hparse]
    simp [hchoose Route.swap, quoteFor, defaultProviderFor, oneinchRec]

/-- C4 witness: the CSV of two unknown names yields the across bridge quote
and the 1inch swap quote, both tagged source=providers. -/
theorem providers_unknown_fallback_default_witness :
    providersTokens "does-not-exist,still-missing" ≠ [] ∧
    (∀ n ∈ providersTokens "does-not-exist,still-missing",
      lookupProvider n = none) ∧
    (bridgeQuoteWithProviders "does-not-exist,still-missing" 1000000 =
      .ok ⟨"across", "providers", "exact-input", 999600⟩ ∧
    swapQuoteWithProviders "does-not-exist,still-missing" 1000000 =
      .ok ⟨"1inch", "providers", "exact-input", 998901⟩) :=
  ⟨by decide, by decide,
    providers_unknown_fallback_default "does-not-exist,still-missing" 1000000
      (by decide) (by decide)⟩

/-- C5: an exact-output swapQuote pinned to a swap provider lacking
exact-output support is code 13 with exact-output in the message; with no
pinned provider the engine selects the default exact-output-capable provider
uniswap and tags the quote source=default_exact_output. -/
theorem swap_exact_output_selection (name : String) (r : ProviderRec)
    (amountOut : Nat)
    (hlook : lookupProvider name = some r)
    (hswap : r.isSwap = true)
    (hnoeo : r.supportsExactOutput = false) :
    swapQuoteExactOutputPinned name amountOut =
      .err 13 (exactOutputMsg r.name) ∧
    strContains (exactOutputMsg r.name) "exact-output" ∧
    swapQuoteExactOutputDefault amountOut =
      .ok ⟨"uniswap", "default_exact_output", "exact-output", amountOut⟩ ∧
    defaultExactOutputProvider = uniswapRec := by
  refine ⟨?_, ?_, rfl, rfl⟩
  · unfold swapQuoteExactOutputPinned
    rw [hlook]
    simp [hswap, hnoeo]
  · refine ⟨"provider " ++ r.name ++ " does not support ", " trade type", ?_⟩
    unfold exactOutputMsg
    rw [String.append_assoc (("provider " ++ r.name) ++ " does not support ")
      "exact-output" " trade type"]
    rw [show ("exact-output" ++ " trade type" : String) =
      "exact-output trade type" from rfl]
    rw [String.append_assoc ("provider " ++ r.name) " does not support "
      "exact-output trade type"]
    rw [show (" does not support " ++ "exact-output trade type" : String) =
      " does not support exact-output trade type" from rfl]

/-- C5 witness: pinning 1inch on an exact-output quote fails with the
exact-output capability error, and the unpinned engine picks uniswap. -/
theorem swap_exact_output_selection_witness :
    lookupProvider "1inch" = some oneinchRec ∧
    oneinchRec.isSwap = true ∧
    oneinchRec.supportsExactOutput = false ∧
    (swapQuoteExactOutputPinned "1inch" 998501 =
      .err 13 (exactOutputMsg oneinchRec.name) ∧
    strContains (exactOutputMsg oneinchRec.name) "exact-output" ∧
    swapQuoteExactOutputDefault 998501 =
      .ok ⟨"uniswap", "default_exact_output", "exact-output", 998501⟩ ∧
    defaultExactOutputProvider = uniswapRec) :=
  ⟨by decide, rfl, rfl,
    swap_exact_output_selection "1inch" oneinchRec 998501 (by decide) rfl rfl⟩

/-- C1 counterexample: the cacheGet action reports the status hit, which is
neither ok nor error, so the envelope claim fails as stated. -/
theorem cacheGet_status_not_ok_nor_error :
    ¬(responseStatus (Request.cacheGetReq CacheLookupResult.hit) = "ok" ∨
      responseStatus (Request.cacheGetReq CacheLookupResult.hit) = "error") := by
  decide

/-- C1 amended: every dispatched response carries a top-level status; it is
ok or error for every action except cacheGet, which reports its cache lookup
outcome (hit, stale or miss) as the status. -/
theorem response_status_envelope (req : Request) :
    (isCacheGetReq req = false →
      responseStatus req = "ok" ∨ responseStatus req = "error") ∧
    (isCacheGetReq req = true →
      responseStatus req = "hit" ∨ responseStatus req = "stale" ∨
        responseStatus req = "miss") := by
  cases req with
  | cacheGetReq st =>
    refine ⟨fun h => by simp [isCacheGetReq] at h, fun _ => ?_⟩
    cases st
    · exact Or.inl rfl
    · exact Or.inr (Or.inl rfl)
    · exact Or.inr (Or.inr rfl)
  | liveReq env m lp p =>
    refine ⟨fun _ => ?_, fun h => by simp [isCacheGetReq] at h⟩
    cases hres : liveDispatch env m lp p with
    | ok r => exact Or.inl (by simp [responseStatus, hres])
    | err c msg => exact Or.inr (by simp [responseStatus, hres])
  | bridgeProvidersReq csv a =>
    refine ⟨fun _ => ?_, fun h => by simp [isCacheGetReq] at h⟩
    cases hres : bridgeQuoteWithProviders csv a with
    | ok q => exact Or.inl (by simp [responseStatus, hres])
    | err c msg => exact Or.inr (by simp [responseStatus, hres])
  | swapProvidersReq csv a =>
    refine ⟨fun _ => ?_, fun h => by simp [isCacheGetReq] at h⟩
    cases hres : swapQuoteWithProviders csv a with
    | ok q => exact Or.inl (by simp [responseStatus, hres])
    | err c msg => exact Or.inr (by simp [responseStatus, hres])
  | swapExactOutputPinnedReq n a =>
    refine ⟨fun _ => ?_, fun h => by simp [isCacheGetReq] at h⟩
    cases hres : swapQuoteExactOutputPinned n a with
    | ok q => exact Or.inl (by simp [responseStatus, hres])
    | err c msg => exact Or.inr (by simp [responseStatus, hres])
  | swapExactOutputDefaultReq a =>
    refine ⟨fun _ => ?_, fun h => by simp [isCacheGetReq] at h⟩
    cases hres : swapQuoteExactOutputDefault a with
    | ok q => exact Or.inl (by simp [responseStatus, hres])
    | err c msg => exact Or.inr (by simp [responseStatus, hres])
  | unknownActionReq n =>
    exact ⟨fun _ => Or.inr rfl, fun h => by simp [isCacheGetReq] at h⟩

/-- C1 amended witness: an unknown action reports error and a stale cacheGet
reports stale. -/
theorem response_status_envelope_witness :
    (isCacheGetReq (Request.unknownActionReq "nope") = false ∧
      (responseStatus (Request.unknownActionReq "nope") = "ok" ∨
        responseStatus (Request.unknownActionReq "nope") = "error")) ∧
    (isCacheGetReq (Request.cacheGetReq CacheLookupResult.stale) = true ∧
      (responseStatus (Request.cacheGetReq CacheLookupResult.stale) = "hit" ∨
        responseStatus (Request.cacheGetReq CacheLookupResult.stale) = "stale" ∨
        responseStatus (Request.cacheGetReq CacheLookupResult.stale) = "miss")) :=
  ⟨⟨rfl, (response_status_envelope (Request.unknownActionReq "nope")).1 rfl⟩,
   ⟨rfl, (response_status_envelope
      (Request.cacheGetReq CacheLookupResult.stale)).2 rfl⟩⟩

/-- C10: strategy and execution rows whose JSON text columns do not parse are
still returned by the list endpoints with HTTP 200, the unparseable spec and
payload fields rendered null and evidence defaulting to the empty object. -/
theorem unparseable_rows_render_null (parse : String → Option PyJson)
    (srows : List StrategyRow) (erows : List ExecutionRow)
    (srow : StrategyRow) (erow : ExecutionRow)
    (hs : srow ∈ srows) (he : erow ∈ erows)
    (hsbad : ∀ s, srow.spec_json = some s → parse s = none)
    (hpbad : ∀ s, erow.payload_json = some s → parse s = none)
    (hebad : ∀ s, erow.evidence_json = some s → parse s = none) :
    (list_strategies parse srows).httpStatus = 200 ∧
    (list_strategies parse srows).status = "ok" ∧
    renderStrategy parse srow ∈ (list_strategies parse srows).items ∧
    (renderStrategy parse srow).spec = none ∧
    (list_executions parse erows).httpStatus = 200 ∧
    (list_executions parse erows).status = "ok" ∧
    renderExecution parse erow ∈ (list_executions parse erows).items ∧
    (renderExecution parse erow).payload = none ∧
    (renderExecution parse erow).evidence = PyJson.obj [] := by
  have hload : ∀ (v : Option String), (∀ s, v = some s → parse s = none) →
      load_json parse v = none := by
    intro v hv
    cases v with
    | none => rfl
    | some s => simp [load_json, hv s rfl]
  refine ⟨rfl, rfl, List.mem_map_of_mem _ hs, ?_, rfl, rfl,
    List.mem_map_of_mem _ he, ?_, ?_⟩
  · simp [renderStrategy, hload srow.spec_json hsbad]
  · simp [renderExecution, hload erow.payload_json hpbad]
  · simp [renderExecution, orEmptyObj, hload erow.evidence_json hebad]

/-- C10 witness: under a parse function failing on every string, the rows
with unparseable columns are still listed at HTTP 200 with spec and payload
null and evidence the empty object. -/
theorem unparseable_rows_render_null_witness :
    badStrategyRow ∈ [badStrategyRow] ∧
    (∀ s, badStrategyRow.spec_json = some s → parseNone s = none) ∧
    ((list_strategies parseNone [badStrategyRow]).httpStatus = 200 ∧
    (list_strategies parseNone [badStrategyRow]).status = "ok" ∧
    renderStrategy parseNone badStrategyRow ∈
      (list_strategies parseNone [badStrategyRow]).items ∧
    (renderStrategy parseNone badStrategyRow).spec = none ∧
    (list_executions parseNone [badExecutionRow]).httpStatus = 200 ∧
    (list_executions parseNone [badExecutionRow]).status = "ok" ∧
    renderExecution parseNone badExecutionRow ∈
      (list_executions parseNone [badExecutionRow]).items ∧
    (renderExecution parseNone badExecutionRow).payload = none ∧
    (renderExecution parseNone badExecutionRow).evidence = PyJson.obj []) :=
  ⟨List.mem_singleton_self _, fun _ _ => rfl,
    unparseable_rows_render_null parseNone [badStrategyRow] [badExecutionRow]
      badStrategyRow badExecutionRow (List.mem_singleton_self _)
      (List.mem_singleton_self _) (fun _ _ => rfl) (fun _ _ => rfl)
      (fun _ _ => rfl)⟩

end Gradience
